import Mathlib

/-!
Shallow embedding of `deepface/detectors/OpenCv.py` (class `OpenCvClient`).

Images are modelled as a size together with a total pixel function; the
external OpenCV primitives (the cascade classifiers, `cv2.cvtColor`, and
`detection.align_face` from `deepface.modules.detection`) are inputs to the
embedded functions, reflecting that the Python code receives their results
as opaque values.  Machine integers coming out of the cascades (rectangle
coordinates and sizes) are natural numbers, as OpenCV detections are
non-negative; Python's `int(x + w / 2)` truncation is then `x + w / 2` with
natural division.
-/

namespace OpenCv

/-- A pixel grid: `pixel i j` is the value at row `i`, column `j`.
Mirrors a `np.ndarray` whose `shape` is `(height, width)`. -/
structure Image where
  height : Nat
  width : Nat
  pixel : Nat → Nat → Nat

/-- A candidate rectangle `(x, y, w, h)` as returned by
`detectMultiScale` / `detectMultiScale3`. -/
structure Rect where
  x : Nat
  y : Nat
  w : Nat
  h : Nat
deriving DecidableEq, Repr

/-- NumPy slice `img[y0:y1, x0:x1]` (non-negative indices): indices are
clamped to the array bounds and an inverted range yields an empty array. -/
def slice (img : Image) (y0 y1 x0 x1 : Nat) : Image where
  height := min y1 img.height - min y0 img.height
  width := min x1 img.width - min x0 img.width
  pixel := fun i j => img.pixel (min y0 img.height + i) (min x0 img.width + j)

/-- The crop `img[int(y) : int(y + h), int(x) : int(x + w)]` taken in
`detect_faces` for a candidate rectangle. -/
def cropRect (img : Image) (r : Rect) : Image :=
  slice img r.y (r.y + r.h) r.x (r.x + r.w)

/-- Sort key of an eye candidate: `abs(v[2] * v[3])`; on the natural-number
rectangles produced by the cascade the absolute value is the identity, so
the key is the area `w * h`. -/
def eyeKey (r : Rect) : Nat :=
  r.w * r.h

/-- The comparison `sorted(eyes, key=lambda v: abs(v[2] * v[3]), reverse=True)`
sorts by: `a` may precede `b` iff `a`'s key is at least `b`'s. -/
def eyeGE (a b : Rect) : Prop :=
  eyeKey b ≤ eyeKey a

instance : DecidableRel eyeGE :=
  fun a b => inferInstanceAs (Decidable (eyeKey b ≤ eyeKey a))

instance : IsTotal Rect eyeGE :=
  ⟨fun a b => (le_total (eyeKey b) (eyeKey a)).imp id id⟩

instance : IsTrans Rect eyeGE := ⟨fun _ _ _ h1 h2 => le_trans h2 h1⟩

/-- Python's `sorted` with `reverse=True` is a stable sort into descending
key order; a stable insertion sort with the `eyeGE` comparison realises it. -/
def sortEyes (eyes : List Rect) : List Rect :=
  List.insertionSort eyeGE eyes

/-- Center of an eye rectangle:
`(int(e[0] + e[2] / 2), int(e[1] + e[3] / 2))` — truncation of a
non-negative half-integer is natural division by 2. -/
def eyeCenter (r : Rect) : Nat × Nat :=
  (r.x + r.w / 2, r.y + r.h / 2)

/-- `OpenCvClient.find_eyes`.  `toGray` stands for `cv2.cvtColor(img,
cv2.COLOR_BGR2GRAY)` and `eyeCascade` for
`self.model["eye_detector"].detectMultiScale(gray, 1.1, 10)`. -/
def find_eyes (toGray : Image → Image) (eyeCascade : Image → List Rect)
    (img : Image) : Option (Nat × Nat) × Option (Nat × Nat) :=
  if img.height = 0 ∨ img.width = 0 then
    (none, none)
  else
    let detected_face_gray := toGray img
    let eyes := sortEyes (eyeCascade detected_face_gray)
    match eyes with
    | eye_1 :: eye_2 :: _ =>
      let lr := if eye_1.x < eye_2.x then (eye_1, eye_2) else (eye_2, eye_1)
      (some (eyeCenter lr.1), some (eyeCenter lr.2))
    | _ => (none, none)

/-- `OpenCvClient.detect_faces`.  `cascade` is the outcome of
`self.model["face_detector"].detectMultiScale3(img, 1.1, 10,
outputRejectLevels=True)`: either an exception (of some type `ε`), or the
candidate rectangles paired with their scores (the middle component,
ignored by the code, is omitted); `alignFace` stands for
`detection.align_face`.  `ε` and the score type `σ` are parameters since
the code only passes the scores through. -/
def detect_faces {ε σ : Type} (toGray : Image → Image)
    (eyeCascade : Image → List Rect)
    (alignFace : Image → Option (Nat × Nat) → Option (Nat × Nat) → Image)
    (img : Image) (align : Bool)
    (cascade : Except ε (List Rect × List σ)) : List (Image × Rect × σ) :=
  let found : List Rect × List σ :=
    match cascade with
    | Except.error _ => ([], [])
    | Except.ok fs => fs
  let faces := found.1
  let scores := found.2
  if faces.length > 0 then
    (faces.zip scores).map fun rc =>
      let detected_face := cropRect img rc.1
      let detected_face :=
        if align then
          let lr := find_eyes toGray eyeCascade detected_face
          alignFace detected_face lr.1 lr.2
        else
          detected_face
      (detected_face, rc.1, rc.2)
  else
    []

/-- A built `cv2.CascadeClassifier`, identified by the asset file it was
loaded from. -/
structure CascadeClassifier where
  path : String
deriving DecidableEq, Repr

/-- The two ways `__build_cascade` raises `ValueError`: a missing asset
file (the error names the expected path) or an unrecognised model name. -/
inductive BuildError where
  | missingAsset (path : String)
  | unimplemented (model_name : String)
deriving DecidableEq, Repr

/-- `OpenCvClient.__build_cascade`.  `isfile` stands for `os.path.isfile`
and `opencv_path` for the result of `__get_opencv_path()`. -/
def build_cascade (isfile : String → Bool) (opencv_path : String)
    (model_name : String) : Except BuildError CascadeClassifier :=
  if model_name = "haarcascade" then
    let face_detector_path := opencv_path ++ "haarcascade_frontalface_default.xml"
    if isfile face_detector_path ≠ true then
      Except.error (BuildError.missingAsset face_detector_path)
    else
      Except.ok ⟨face_detector_path⟩
  else if model_name = "haarcascade_eye" then
    let eye_detector_path := opencv_path ++ "haarcascade_eye.xml"
    if isfile eye_detector_path ≠ true then
      Except.error (BuildError.missingAsset eye_detector_path)
    else
      Except.ok ⟨eye_detector_path⟩
  else
    Except.error (BuildError.unimplemented model_name)

/-- The model store built by `build_model`: the dict
`{"face_detector": ..., "eye_detector": ...}`. -/
structure Models where
  face_detector : CascadeClassifier
  eye_detector : CascadeClassifier
deriving DecidableEq, Repr

/-- `OpenCvClient.build_model`: builds the face cascade, then the eye
cascade; either raised `ValueError` propagates to the caller. -/
def build_model (isfile : String → Bool) (opencv_path : String) :
    Except BuildError Models :=
  match build_cascade isfile opencv_path "haarcascade" with
  | Except.error e => Except.error e
  | Except.ok face =>
    match build_cascade isfile opencv_path "haarcascade_eye" with
    | Except.error e => Except.error e
    | Except.ok eye => Except.ok { face_detector := face, eye_detector := eye }

/-- A concrete non-degenerate 2×3 test image. -/
def img0 : Image := ⟨2, 3, fun _ _ => 0⟩

/-- A concrete non-degenerate 4×4 test image. -/
def img1 : Image := ⟨4, 4, fun _ _ => 7⟩

/-- A concrete degenerate test image with zero height. -/
def imgDeg : Image := ⟨0, 5, fun _ _ => 0⟩

/-- A trivial stand-in for `detection.align_face` used in concrete tests. -/
def alignId : Image → Option (Nat × Nat) → Option (Nat × Nat) → Image :=
  fun i _ _ => i

end OpenCv

namespace OpenCv

/-- C1 (counterexample): on a concrete image with a cascade yielding zero
candidates, `detect_faces` returns the empty list — not a single-element
list whose region is the full image bounds. -/
theorem detect_faces_zero_candidates_not_singleton :
    detect_faces (ε := Unit) id (fun _ => []) alignId img0 true
        (Except.ok ([], ([] : List Nat))) = [] ∧
    (detect_faces (ε := Unit) id (fun _ => []) alignId img0 true
        (Except.ok ([], ([] : List Nat)))).length ≠ 1 :=
  ⟨rfl, by decide⟩

/-- C1 (amended): whenever the face cascade yields zero candidates — also
when it throws — `detect_faces` returns the empty sequence; the initialised
full-image region default is never emitted. -/
theorem detect_faces_zero_candidates_empty {ε σ : Type}
    (toGray : Image → Image) (eyeCascade : Image → List Rect)
    (alignFace : Image → Option (Nat × Nat) → Option (Nat × Nat) → Image)
    (img : Image) (align : Bool) :
    (∀ scores : List σ,
      detect_faces (ε := ε) toGray eyeCascade alignFace img align
        (Except.ok (([] : List Rect), scores)) = []) ∧
    (∀ e : ε,
      detect_faces (σ := σ) toGray eyeCascade alignFace img align
        (Except.error e) = []) :=
  ⟨fun _ => rfl, fun _ => rfl⟩

/-- C2: if the multi-scale cascade search raises any error, `detect_faces`
swallows it and behaves exactly as if the cascade had returned zero
candidates. -/
theorem detect_faces_swallows_errors {ε σ : Type}
    (toGray : Image → Image) (eyeCascade : Image → List Rect)
    (alignFace : Image → Option (Nat × Nat) → Option (Nat × Nat) → Image)
    (img : Image) (align : Bool) (e : ε) :
    detect_faces toGray eyeCascade alignFace img align (Except.error e) =
      detect_faces (ε := ε) toGray eyeCascade alignFace img align
        (Except.ok (([] : List Rect), ([] : List σ))) :=
  rfl

/-- C3: on a face crop with zero height or zero width, `find_eyes` returns
no eyes immediately, and its result does not depend on the grayscale
conversion or the eye cascade — they are never invoked. -/
theorem find_eyes_degenerate
    (toGray toGray' : Image → Image)
    (eyeCascade eyeCascade' : Image → List Rect) (img : Image)
    (h : img.height = 0 ∨ img.width = 0) :
    find_eyes toGray eyeCascade img = (none, none) ∧
    find_eyes toGray eyeCascade img = find_eyes toGray' eyeCascade' img := by
  constructor <;> simp [find_eyes, if_pos h]

/-- Witness for C3 at a concrete degenerate image. -/
theorem find_eyes_degenerate_witness :
    find_eyes id (fun _ => [⟨1, 1, 2, 2⟩]) imgDeg = (none, none) :=
  (find_eyes_degenerate id id (fun _ => [⟨1, 1, 2, 2⟩]) (fun _ => [])
    imgDeg (Or.inl rfl)).1

/-- C4: `find_eyes` sorts the eye-cascade candidates by area descending and
takes the two largest as the eye pair: with fewer than two candidates it
returns no eyes, and otherwise the head pair of the sorted list is a
permutation-respecting maximum (every candidate's area is at most the
first's, every remaining one's at most the second's) and determines the
returned pair. -/
theorem find_eyes_top_two (toGray : Image → Image)
    (eyeCascade : Image → List Rect) (img : Image) :
    ((eyeCascade (toGray img)).length < 2 →
      find_eyes toGray eyeCascade img = (none, none)) ∧
    (∀ e1 e2 rest, ¬(img.height = 0 ∨ img.width = 0) →
      sortEyes (eyeCascade (toGray img)) = e1 :: e2 :: rest →
      List.Perm (eyeCascade (toGray img)) (e1 :: e2 :: rest) ∧
      eyeKey e2 ≤ eyeKey e1 ∧
      (∀ e ∈ eyeCascade (toGray img), eyeKey e ≤ eyeKey e1) ∧
      (∀ e ∈ rest, eyeKey e ≤ eyeKey e2) ∧
      find_eyes toGray eyeCascade img =
        (if e1.x < e2.x then (some (eyeCenter e1), some (eyeCenter e2))
         else (some (eyeCenter e2), some (eyeCenter e1)))) := by
  have hperm : List.Perm (sortEyes (eyeCascade (toGray img)))
      (eyeCascade (toGray img)) :=
    List.perm_insertionSort eyeGE _
  have hsorted : List.Sorted eyeGE (sortEyes (eyeCascade (toGray img))) :=
    List.sorted_insertionSort eyeGE _
  constructor
  · intro hlen
    by_cases hdeg : img.height = 0 ∨ img.width = 0
    · simp [find_eyes, if_pos hdeg]
    · have hlen' : (sortEyes (eyeCascade (toGray img))).length < 2 := by
        rw [hperm.length_eq]; exact hlen
      rcases hm : sortEyes (eyeCascade (toGray img)) with _ | ⟨a, _ | ⟨b, t⟩⟩
      · simp [find_eyes, if_neg hdeg, hm]
      · simp [find_eyes, if_neg hdeg, hm]
      · rw [hm] at hlen'; simp at hlen'; omega
  · intro e1 e2 rest hdeg hsort
    rw [hsort] at hsorted
    have hperm' : List.Perm (eyeCascade (toGray img)) (e1 :: e2 :: rest) := by
      rw [← hsort]; exact hperm.symm
    obtain ⟨h1, h2⟩ := List.pairwise_cons.mp hsorted
    obtain ⟨h2r, _⟩ := List.pairwise_cons.mp h2
    refine ⟨hperm', h1 e2 (List.mem_cons_self _ _), ?_, ?_, ?_⟩
    · intro e he
      have hm1 : e ∈ e1 :: e2 :: rest := hperm'.mem_iff.mp he
      rcases List.mem_cons.mp hm1 with rfl | hm2
      · exact le_refl _
      · exact h1 e hm2
    · intro e he
      exact h2r e he
    · by_cases hx : e1.x < e2.x <;>
        simp [find_eyes, if_neg hdeg, hsort, hx]

/-- Witness for C4: one candidate yields no eyes; of three candidates with
areas 100, 400 and 25, the area-400 and area-100 ones are selected. -/
theorem find_eyes_top_two_witness :
    find_eyes id (fun _ => [⟨0, 0, 1, 1⟩]) img1 = (none, none) ∧
    find_eyes id (fun _ => [⟨50, 0, 10, 10⟩, ⟨10, 0, 20, 20⟩, ⟨0, 0, 5, 5⟩]) img1
      = (some (20, 10), some (55, 5)) :=
  ⟨(find_eyes_top_two id (fun _ => [⟨0, 0, 1, 1⟩]) img1).1 (by decide),
   ((find_eyes_top_two id
        (fun _ => [⟨50, 0, 10, 10⟩, ⟨10, 0, 20, 20⟩, ⟨0, 0, 5, 5⟩]) img1).2
      ⟨10, 0, 20, 20⟩ ⟨50, 0, 10, 10⟩ [⟨0, 0, 5, 5⟩]
      (by decide) (by decide)).2.2.2.2⟩

/-- C5 (counterexample): with candidates at `x = 10` (width 100) and
`x = 50` (width 2), in either detection order, the returned left eye center
has x-coordinate 60, which is NOT strictly less than the right eye center's
x-coordinate 51 — the center-x ordering claimed does not always hold. -/
theorem find_eyes_center_order_counterexample :
    find_eyes id (fun _ => [⟨10, 0, 100, 10⟩, ⟨50, 0, 2, 10⟩]) img1
      = (some (60, 5), some (51, 5)) ∧
    find_eyes id (fun _ => [⟨50, 0, 2, 10⟩, ⟨10, 0, 100, 10⟩]) img1
      = (some (60, 5), some (51, 5)) ∧
    ¬ (60 < 51) :=
  ⟨rfl, rfl, by decide⟩

/-- C5 (amended): of the two selected candidates, the one with the smaller
rectangle x-coordinate is assigned as left, the other as right, invariantly
under the order the cascade returned them; the left center x-coordinate is
strictly less than the right one whenever the rectangle-x gap also
dominates the half-width difference (`x1 + w1/2 < x2 + w2/2`, e.g. for
equal widths). -/
theorem find_eyes_left_right (toGray : Image → Image) (img : Image)
    (e1 e2 : Rect) (hdeg : ¬(img.height = 0 ∨ img.width = 0))
    (hx : e1.x < e2.x) :
    find_eyes toGray (fun _ => [e1, e2]) img
      = find_eyes toGray (fun _ => [e2, e1]) img ∧
    find_eyes toGray (fun _ => [e1, e2]) img
      = (some (eyeCenter e1), some (eyeCenter e2)) ∧
    (e1.x + e1.w / 2 < e2.x + e2.w / 2 →
      (eyeCenter e1).1 < (eyeCenter e2).1) := by
  have hx' : ¬ e2.x < e1.x := Nat.lt_asymm hx
  refine ⟨?_, ?_, fun h => ?_⟩
  · by_cases hk : eyeGE e1 e2 <;> by_cases hk2 : eyeGE e2 e1 <;>
      simp [find_eyes, sortEyes, if_neg hdeg, hk, hk2, hx, hx']
  · by_cases hk : eyeGE e1 e2 <;>
      simp [find_eyes, sortEyes, if_neg hdeg, hk, hx, hx']
  · simpa [eyeCenter] using h

/-- Witness for C5 (amended) at candidates of equal size with `x = 10` and
`x = 50`. -/
theorem find_eyes_left_right_witness :
    find_eyes id (fun _ => [⟨10, 0, 4, 4⟩, ⟨50, 0, 4, 4⟩]) img1
      = find_eyes id (fun _ => [⟨50, 0, 4, 4⟩, ⟨10, 0, 4, 4⟩]) img1 ∧
    find_eyes id (fun _ => [⟨10, 0, 4, 4⟩, ⟨50, 0, 4, 4⟩]) img1
      = (some (12, 2), some (52, 2)) ∧
    12 < 52 :=
  have h := find_eyes_left_right id img1 ⟨10, 0, 4, 4⟩ ⟨50, 0, 4, 4⟩
    (by decide) (by decide)
  ⟨h.1, h.2.1, h.2.2 (by decide)⟩

/-- C6: the eyes returned by `find_eyes` are the integer-truncated center
points `(x + w/2, y + h/2)` of the two selected rectangles. -/
theorem find_eyes_returns_centers (toGray : Image → Image)
    (eyeCascade : Image → List Rect) (img : Image)
    (e1 e2 : Rect) (rest : List Rect)
    (hdeg : ¬(img.height = 0 ∨ img.width = 0))
    (hsort : sortEyes (eyeCascade (toGray img)) = e1 :: e2 :: rest) :
    find_eyes toGray eyeCascade img =
      (some (eyeCenter (if e1.x < e2.x then e1 else e2)),
       some (eyeCenter (if e1.x < e2.x then e2 else e1))) ∧
    ∀ r : Rect, eyeCenter r = (r.x + r.w / 2, r.y + r.h / 2) := by
  refine ⟨?_, fun r => rfl⟩
  by_cases hx : e1.x < e2.x <;> simp [find_eyes, if_neg hdeg, hsort, hx]

/-- Witness for C6 at two concrete candidates. -/
theorem find_eyes_returns_centers_witness :
    find_eyes id (fun _ => [⟨2, 4, 6, 8⟩, ⟨20, 10, 6, 8⟩]) img1
      = (some (5, 8), some (23, 14)) ∧
    eyeCenter ⟨2, 4, 6, 8⟩ = (2 + 6 / 2, 4 + 8 / 2) :=
  have h := find_eyes_returns_centers id
    (fun _ => [⟨2, 4, 6, 8⟩, ⟨20, 10, 6, 8⟩]) img1
    ⟨2, 4, 6, 8⟩ ⟨20, 10, 6, 8⟩ [] (by decide) (by decide)
  ⟨h.1, h.2 ⟨2, 4, 6, 8⟩⟩

/-- C7: every result element's region round-trips: with `align = false` the
element's face is exactly the crop of the original image at its own
reported region, and with `align = true` it is the alignment transform
applied to that same crop (crop-then-rotate, never a different region). -/
theorem detect_faces_region_roundtrip {ε σ : Type} (toGray : Image → Image)
    (eyeCascade : Image → List Rect)
    (alignFace : Image → Option (Nat × Nat) → Option (Nat × Nat) → Image)
    (img : Image) (cascade : Except ε (List Rect × List σ)) :
    (∀ x ∈ detect_faces toGray eyeCascade alignFace img false cascade,
      x.1 = cropRect img x.2.1) ∧
    (∀ x ∈ detect_faces toGray eyeCascade alignFace img true cascade,
      x.1 = alignFace (cropRect img x.2.1)
              (find_eyes toGray eyeCascade (cropRect img x.2.1)).1
              (find_eyes toGray eyeCascade (cropRect img x.2.1)).2) := by
  refine ⟨?_, ?_⟩ <;>
  · intro x hx
    rcases cascade with e | fs
    · simp [detect_faces] at hx
    · simp only [detect_faces] at hx
      split at hx
      · obtain ⟨rc, hrc, rfl⟩ := List.mem_map.mp hx
        rfl
      · simp at hx

/-- Witness for C7 at a one-candidate cascade on a concrete image. -/
theorem detect_faces_region_roundtrip_witness :
    (cropRect img0 ⟨1, 0, 2, 2⟩, (⟨1, 0, 2, 2⟩ : Rect), (5 : Nat)).1
      = cropRect img0 ⟨1, 0, 2, 2⟩ ∧
    (alignId (cropRect img0 ⟨1, 0, 2, 2⟩)
        (find_eyes id (fun _ => []) (cropRect img0 ⟨1, 0, 2, 2⟩)).1
        (find_eyes id (fun _ => []) (cropRect img0 ⟨1, 0, 2, 2⟩)).2,
      (⟨1, 0, 2, 2⟩ : Rect), (5 : Nat)).1
      = cropRect img0 ⟨1, 0, 2, 2⟩ :=
  ⟨(detect_faces_region_roundtrip (ε := Unit) id (fun _ => []) alignId img0
      (Except.ok ([⟨1, 0, 2, 2⟩], [5]))).1
      (cropRect img0 ⟨1, 0, 2, 2⟩, ⟨1, 0, 2, 2⟩, 5) (List.Mem.head _),
   (detect_faces_region_roundtrip (ε := Unit) id (fun _ => []) alignId img0
      (Except.ok ([⟨1, 0, 2, 2⟩], [5]))).2
      (alignId (cropRect img0 ⟨1, 0, 2, 2⟩)
        (find_eyes id (fun _ => []) (cropRect img0 ⟨1, 0, 2, 2⟩)).1
        (find_eyes id (fun _ => []) (cropRect img0 ⟨1, 0, 2, 2⟩)).2,
        ⟨1, 0, 2, 2⟩, 5) (List.Mem.head _)⟩

/-- C8: when the cascade yields `n ≥ 1` candidates with `n` matching
scores, `detect_faces` returns exactly `n` tuples whose regions and
confidences are, in the cascade's native order, exactly the candidate
rectangles zipped with their scores. -/
theorem detect_faces_native_order {ε σ : Type} (toGray : Image → Image)
    (eyeCascade : Image → List Rect)
    (alignFace : Image → Option (Nat × Nat) → Option (Nat × Nat) → Image)
    (img : Image) (align : Bool) (faces : List Rect) (scores : List σ)
    (hlen : scores.length = faces.length) (hn : 0 < faces.length) :
    (detect_faces (ε := ε) toGray eyeCascade alignFace img align
        (Except.ok (faces, scores))).length = faces.length ∧
    (detect_faces (ε := ε) toGray eyeCascade alignFace img align
        (Except.ok (faces, scores))).map (fun x => (x.2.1, x.2.2))
      = faces.zip scores := by
  constructor
  · simp [detect_faces, if_pos hn, hlen]
  · simp only [detect_faces, if_pos hn, List.map_map]
    exact List.map_id _

/-- Witness for C8 with two concrete candidates and scores. -/
theorem detect_faces_native_order_witness :
    (detect_faces (ε := Unit) id (fun _ => []) alignId img0 true
        (Except.ok ([⟨1, 2, 3, 4⟩, ⟨5, 6, 7, 8⟩], [9, 10]))).length = 2 ∧
    (detect_faces (ε := Unit) id (fun _ => []) alignId img0 true
        (Except.ok ([⟨1, 2, 3, 4⟩, ⟨5, 6, 7, 8⟩], [9, 10]))).map
        (fun x => (x.2.1, x.2.2))
      = [(⟨1, 2, 3, 4⟩, 9), (⟨5, 6, 7, 8⟩, 10)] :=
  have h := detect_faces_native_order (ε := Unit) id (fun _ => []) alignId img0
    true [⟨1, 2, 3, 4⟩, ⟨5, 6, 7, 8⟩] [9, 10] (by decide) (by decide)
  ⟨h.1, h.2⟩

/-- C9: `build_model` either returns a store holding both cascades (built
from the two expected asset paths, with both files present) or fails at
construction with an error naming the missing asset's expected path
(face cascade checked first); an unrecognised cascade kind fails with the
distinct unimplemented-name error. -/
theorem build_model_contract (isfile : String → Bool) (p : String) :
    (∀ m, build_model isfile p = Except.ok m →
      isfile (p ++ "haarcascade_frontalface_default.xml") = true ∧
      isfile (p ++ "haarcascade_eye.xml") = true ∧
      m = { face_detector := ⟨p ++ "haarcascade_frontalface_default.xml"⟩,
            eye_detector := ⟨p ++ "haarcascade_eye.xml"⟩ }) ∧
    (isfile (p ++ "haarcascade_frontalface_default.xml") = false →
      build_model isfile p = Except.error
        (BuildError.missingAsset (p ++ "haarcascade_frontalface_default.xml"))) ∧
    (isfile (p ++ "haarcascade_frontalface_default.xml") = true →
      isfile (p ++ "haarcascade_eye.xml") = false →
      build_model isfile p = Except.error
        (BuildError.missingAsset (p ++ "haarcascade_eye.xml"))) ∧
    (∀ name, name ≠ "haarcascade" → name ≠ "haarcascade_eye" →
      build_cascade isfile p name
        = Except.error (BuildError.unimplemented name)) := by
  refine ⟨?_, ?_, ?_, ?_⟩
  · intro m hm
    by_cases hf : isfile (p ++ "haarcascade_frontalface_default.xml") = true <;>
      by_cases he : isfile (p ++ "haarcascade_eye.xml") = true <;>
      simp [build_model, build_cascade, hf, he] at hm ⊢
    exact hm.symm
  · intro hf
    simp [build_model, build_cascade, hf]
  · intro hf he
    simp [build_model, build_cascade, hf, he]
  · intro name h1 h2
    simp [build_cascade, h1, h2]

/-- Witness for C9 with an all-present filesystem and an unknown cascade
kind. -/
theorem build_model_contract_witness :
    ((fun _ : String => true) ("/data/" ++ "haarcascade_frontalface_default.xml")
        = true ∧
     (fun _ : String => true) ("/data/" ++ "haarcascade_eye.xml") = true ∧
     ({ face_detector := ⟨"/data/" ++ "haarcascade_frontalface_default.xml"⟩,
        eye_detector := ⟨"/data/" ++ "haarcascade_eye.xml"⟩ } : Models)
       = { face_detector := ⟨"/data/" ++ "haarcascade_frontalface_default.xml"⟩,
           eye_detector := ⟨"/data/" ++ "haarcascade_eye.xml"⟩ }) ∧
    build_cascade (fun _ => true) "/data/" "lbpcascade"
      = Except.error (BuildError.unimplemented "lbpcascade") :=
  have h := build_model_contract (fun _ => true) "/data/"
  ⟨h.1 { face_detector := ⟨"/data/" ++ "haarcascade_frontalface_default.xml"⟩,
         eye_detector := ⟨"/data/" ++ "haarcascade_eye.xml"⟩ } rfl,
   h.2.2.2 "lbpcascade" (by decide) (by decide)⟩

/-- C10: through `build_model` — the only cascade-construction path
reachable from the public constructor — the result is either a fully built
store or a missing-asset error: the unimplemented-model-name branch of the
cascade builder is unreachable. -/
theorem build_model_no_unimplemented (isfile : String → Bool) (p : String) :
    (∃ m, build_model isfile p = Except.ok m) ∨
    (∃ path, build_model isfile p
        = Except.error (BuildError.missingAsset path)) := by
  by_cases hf : isfile (p ++ "haarcascade_frontalface_default.xml") = true
  · by_cases he : isfile (p ++ "haarcascade_eye.xml") = true
    · exact Or.inl ⟨{ face_detector := ⟨p ++ "haarcascade_frontalface_default.xml"⟩,
                      eye_detector := ⟨p ++ "haarcascade_eye.xml"⟩ },
        by simp [build_model, build_cascade, hf, he]⟩
    · exact Or.inr ⟨p ++ "haarcascade_eye.xml",
        by simp [build_model, build_cascade, hf, he]⟩
  · exact Or.inr ⟨p ++ "haarcascade_frontalface_default.xml",
      by simp [build_model, build_cascade, hf]⟩

end OpenCv
